import Mathlib

/-!
Shallow embedding of the two generated rustdoc artifacts of the
martian-rust repository slice:

* `src/doc/implementors/serde/ser/trait.Serialize.js` — an IIFE that
  builds an `implementors` object (crate name to a list of impl
  records, each with a rendered HTML `text`, a `synthetic` flag and a
  `types` list) and then either calls
  `window.register_implementors(implementors)` (when that property is
  truthy) or stores the object in `window.pending_implementors`.
* the sidebar index file — a single call
  `initSidebarItems({...})` whose argument maps the category tags to
  arrays of `[name, doc]` records.
-/

set_option maxRecDepth 100000

/-- One record of an implementors list in the generated
`trait.Serialize.js`: the rendered HTML `text` of the impl, the
`synthetic` flag and the `types` list, exactly as in the JS object
literal. -/
structure ImplEntry where
  text : String
  synthetic : Bool
  types : List String
deriving DecidableEq

/-- The `implementors` object built by `trait.Serialize.js` lines 2-3,
as an association list from crate name to its list of impl records. -/
def implementors : List (String × List ImplEntry) :=
  [
   ("martian",
    [
     { text := "impl <a class=\"trait\" href=\"serde/ser/trait.Serialize.html\" title=\"trait serde::ser::Serialize\">Serialize</a> for <a class=\"struct\" href=\"martian/types/struct.MartianVoid.html\" title=\"struct martian::types::MartianVoid\">MartianVoid</a>",
       synthetic := false, types := ["martian::types::MartianVoid"] },
     { text := "impl <a class=\"trait\" href=\"serde/ser/trait.Serialize.html\" title=\"trait serde::ser::Serialize\">Serialize</a> for <a class=\"struct\" href=\"martian/struct.Resource.html\" title=\"struct martian::Resource\">Resource</a>",
       synthetic := false, types := ["martian::stage::Resource"] },
     { text := "impl&lt;T&gt; <a class=\"trait\" href=\"serde/ser/trait.Serialize.html\" title=\"trait serde::ser::Serialize\">Serialize</a> for <a class=\"struct\" href=\"martian/struct.StageDef.html\" title=\"struct martian::StageDef\">StageDef</a>&lt;T&gt; <span class=\"where fmt-newline\">where<br>&nbsp;&nbsp;&nbsp;&nbsp;T: <a class=\"trait\" href=\"serde/ser/trait.Serialize.html\" title=\"trait serde::ser::Serialize\">Serialize</a>,&nbsp;</span>",
       synthetic := false, types := ["martian::stage::StageDef"] },
     { text := "impl <a class=\"trait\" href=\"serde/ser/trait.Serialize.html\" title=\"trait serde::ser::Serialize\">Serialize</a> for <a class=\"enum\" href=\"martian/mro/enum.MartianPrimaryType.html\" title=\"enum martian::mro::MartianPrimaryType\">MartianPrimaryType</a>",
       synthetic := false, types := ["martian::mro::MartianPrimaryType"] },
     { text := "impl <a class=\"trait\" href=\"serde/ser/trait.Serialize.html\" title=\"trait serde::ser::Serialize\">Serialize</a> for <a class=\"enum\" href=\"martian/mro/enum.MartianBlanketType.html\" title=\"enum martian::mro::MartianBlanketType\">MartianBlanketType</a>",
       synthetic := false, types := ["martian::mro::MartianBlanketType"] },
     { text := "impl <a class=\"trait\" href=\"serde/ser/trait.Serialize.html\" title=\"trait serde::ser::Serialize\">Serialize</a> for <a class=\"struct\" href=\"martian/mro/struct.MroField.html\" title=\"struct martian::mro::MroField\">MroField</a>",
       synthetic := false, types := ["martian::mro::MroField"] },
     { text := "impl <a class=\"trait\" href=\"serde/ser/trait.Serialize.html\" title=\"trait serde::ser::Serialize\">Serialize</a> for <a class=\"enum\" href=\"martian/mro/enum.Volatile.html\" title=\"enum martian::mro::Volatile\">Volatile</a>",
       synthetic := false, types := ["martian::mro::Volatile"] },
     { text := "impl <a class=\"trait\" href=\"serde/ser/trait.Serialize.html\" title=\"trait serde::ser::Serialize\">Serialize</a> for <a class=\"struct\" href=\"martian/mro/struct.MroUsing.html\" title=\"struct martian::mro::MroUsing\">MroUsing</a>",
       synthetic := false, types := ["martian::mro::MroUsing"] }
    ]),
   ("serde_json",
    [
     { text := "impl <a class=\"trait\" href=\"serde/ser/trait.Serialize.html\" title=\"trait serde::ser::Serialize\">Serialize</a> for <a class=\"struct\" href=\"serde_json/map/struct.Map.html\" title=\"struct serde_json::map::Map\">Map</a>&lt;<a class=\"struct\" href=\"https://doc.rust-lang.org/nightly/alloc/string/struct.String.html\" title=\"struct alloc::string::String\">String</a>, <a class=\"enum\" href=\"serde_json/value/enum.Value.html\" title=\"enum serde_json::value::Value\">Value</a>&gt;",
       synthetic := false, types := ["serde_json::map::Map"] },
     { text := "impl <a class=\"trait\" href=\"serde/ser/trait.Serialize.html\" title=\"trait serde::ser::Serialize\">Serialize</a> for <a class=\"enum\" href=\"serde_json/value/enum.Value.html\" title=\"enum serde_json::value::Value\">Value</a>",
       synthetic := false, types := ["serde_json::value::Value"] },
     { text := "impl <a class=\"trait\" href=\"serde/ser/trait.Serialize.html\" title=\"trait serde::ser::Serialize\">Serialize</a> for <a class=\"struct\" href=\"serde_json/struct.Number.html\" title=\"struct serde_json::Number\">Number</a>",
       synthetic := false, types := ["serde_json::number::Number"] }
    ])
  ]

/-- The argument object of the `initSidebarItems` call in the sidebar
index file, as an association list from category tag to its array of
records; each record is the JS array of strings verbatim. -/
def sidebarItems : List (String × List (List String)) :=
  [
   ("constant",
    [
     ["MARTIAN_TOKENS", ""]
    ]),
   ("enum",
    [
     ["MartianBlanketType", "Primary Data type + Arrays (which are derived from primary types)"],
     ["MartianPrimaryType", "Primary data types in Martian world"],
     ["Volatile", ""]
    ]),
   ("struct",
    [
     ["FiletypeHeader", "The list of filetypes we list at the top of the mro A simple wrapper around a HashSet of all file extensions."],
     ["InAndOut", "Input and outputs together"],
     ["MroField", "Each variable that is listed in the mro along with it\x27s type form a `MroField`. For example, the following stage: `mro stage SORT_ITEMS(     in  int[] unsorted,     in  bool  reverse,     out int[] sorted,     src comp  \"my_stage martian sort_items\", ) ` contains 3 `MroFields` - MroField \x7b name: unsorted, ty: MartianBlanketType::Array(MartianPrimaryType::Int)\x7d - MroField \x7b name: reverse, ty: MartianBlanketType::Primary(MartianPrimaryType::Bool)\x7d - MroField \x7b name: sorted, ty: MartianBlanketType::Array(MartianPrimaryType::Int)\x7d"],
     ["MroUsing", "Stuff that comes in the `using` section of a stage definition For example: `mro using (     mem_gb  = 4,     threads = 16, ) `"],
     ["StageMro", "All the data needed to create a stage definition mro. TODO: Retain"]
    ]),
   ("trait",
    [
     ["AsMartianBlanketType", "A trait that defines how to convert this Rust type into an `MartianBlanketType`. Not all rust types can be converted to an `MartianBlanketType`. Not defined for - Unit, the type of () in Rust. - Unit Struct For example `struct Unit` or `PhantomData<T>`. It represents     a named value containing no data. Any type which implements `AsMartianPrimaryType` also implements `AsMartianBlanketType` It is stringly recommended not to extend any types with this trait, instead use the `AsMartianPrimaryType` trait."],
     ["AsMartianPrimaryType", "A trait that tells you how to convert a Rust data type to a basic Martian type."],
     ["MartianStruct", "A trait that defines how to expand a struct into a list of `MroField`s The `MartianStage` and `MartianMain` traits already has independent associated types for stage/chunk inputs and outputs. If those associated types implement this trait, then we can readily generate all the mro variables with the appropriate type and put them at the right place (withing stage def or chunk def)."],
     ["MroDisplay", "Defines how an entity that denotes some part of the mro is displayed"],
     ["MroMaker", "Can be auto generated using proc macro attribute #[make_mro] on MartianMain or MartianStage implementations if the associated types implement `MartianStruct`"]
    ])
  ]

/-- A single observable call event of the implementors script. -/
inductive Event where
  | callRegisterImplementors (arg : List (String × List ImplEntry))
deriving DecidableEq

/-- A single observable call event of the sidebar index file. -/
inductive SidebarEvent where
  | callInitSidebarItems (arg : List (String × List (List String)))
deriving DecidableEq

/-- The browser `window` state the implementors script can observe or
touch: whether `window.register_implementors` is set (to a truthy
callback), the `window.pending_implementors` slot, and all the other
properties of `window`, which the script never mentions. -/
structure Window where
  register_implementors_defined : Bool
  pending_implementors : Option (List (String × List ImplEntry))
  otherProps : List (String × String)
deriving DecidableEq

/-- Execution of the IIFE in `trait.Serialize.js` (lines 5-9): after
building `implementors`, if `window.register_implementors` is set it is
called with the table, otherwise `window.pending_implementors` is
assigned the table.  Returns the updated window and the list of
external calls made. -/
def runImplementorsScript (w : Window) : Window × List Event :=
  if w.register_implementors_defined then
    (w, [Event.callRegisterImplementors implementors])
  else
    ({ w with pending_implementors := some implementors }, [])

/-- Execution of the IIFE as a relation, one constructor per branch of
the conditional in lines 5-9 of `trait.Serialize.js`. -/
inductive ScriptExec : Window → Window × List Event → Prop where
  | registered (w : Window) (h : w.register_implementors_defined = true) :
      ScriptExec w (w, [Event.callRegisterImplementors implementors])
  | deferred (w : Window) (h : w.register_implementors_defined = false) :
      ScriptExec w ({ w with pending_implementors := some implementors }, [])

/-- Execution of the sidebar index file: a single call to the external
`initSidebarItems` with the fixed metadata object. -/
inductive SidebarExec : List SidebarEvent → Prop where
  | run : SidebarExec [SidebarEvent.callInitSidebarItems sidebarItems]

/-- Does the character list start with the given needle? -/
def startsWithL : List Char → List Char → Bool
  | _, [] => true
  | [], _ :: _ => false
  | a :: as, b :: bs => a == b && startsWithL as bs

/-- The suffix of `hay` just after the first occurrence of `needle`
(`none` when `needle` does not occur). -/
def afterFirst (needle : List Char) : List Char → Option (List Char)
  | [] => none
  | c :: rest =>
      if startsWithL (c :: rest) needle then some (List.drop needle.length (c :: rest))
      else afterFirst needle rest

/-- The characters of the list up to (excluding) the first `stop`. -/
def takeUntil (stop : Char) : List Char → List Char
  | [] => []
  | c :: rest => if c == stop then [] else c :: takeUntil stop rest

/-- Does `needle` occur inside `hay`? -/
def containsSub (needle hay : List Char) : Bool :=
  (afterFirst needle hay).isSome

/-- The value of the first `title="..."` attribute in a rendered impl
text.  In the rustdoc rendering `impl Trait for Type ...` the first
link — hence the first title attribute — is the trait being
implemented. -/
def firstTitleAttr (text : String) : Option String :=
  (afterFirst ("title=\"".data) text.data).map fun rest => String.mk (takeUntil '"' rest)

/-- The implementors recorded for the `martian` crate. -/
def martianSerializeImpls : List ImplEntry :=
  (implementors.lookup ("martian")).getD []

/-- The type paths of all `martian`-crate implementors of
`serde::ser::Serialize`. -/
def martianSerializeTypes : List String :=
  (martianSerializeImpls.map ImplEntry.types).flatten

/-- The recorded implementors whose `types` field names
`martian::stage::StageDef`. -/
def stageDefEntries : List ImplEntry :=
  martianSerializeImpls.filter fun e => e.types == ["martian::stage::StageDef"]

/-- An impl record is unconditional when its rendered text carries no
`where` clause. -/
def implUnconditional (e : ImplEntry) : Bool :=
  !(containsSub ("where".data) e.text.data)

/-- The reading of claim C4 as stated: the table records a `Serialize`
implementation for `StageDef<T>` that applies to every type parameter
`T`, i.e. an entry for `StageDef` exists and carries no `where`
clause restricting `T`. -/
def stageDefSerializesForEveryT : Bool :=
  !stageDefEntries.isEmpty && stageDefEntries.all implUnconditional

/-- An impl record for `StageDef` is generic in `T` with the bound
`T: Serialize` exactly when its text shows `impl<T>` and a `where`
clause bounding `T` by the serde `Serialize` trait. -/
def stageDefBoundedByTSerialize (e : ImplEntry) : Bool :=
  containsSub ("impl&lt;T&gt;".data) e.text.data &&
  containsSub ("where".data) e.text.data &&
  containsSub ("T: <a class=\"trait\" href=\"serde/ser/trait.Serialize.html\"".data) e.text.data

/-- C1: the set of martian-crate types given a `Serialize`
implementation in the implementors table is exactly `MartianVoid`,
`Resource`, `StageDef`, `MartianPrimaryType`, `MartianBlanketType`,
`MroField`, `Volatile` and `MroUsing` — eight entries, no more and no
fewer. -/
theorem c1_martian_serialize_types :
    martianSerializeTypes =
      ["martian::types::MartianVoid", "martian::stage::Resource",
       "martian::stage::StageDef", "martian::mro::MartianPrimaryType",
       "martian::mro::MartianBlanketType", "martian::mro::MroField",
       "martian::mro::Volatile", "martian::mro::MroUsing"] ∧
    martianSerializeTypes.length = 8 := by
  constructor
  · decide
  · decide

/-- C2: exactly one branch of the conditional runs.  When
`window.register_implementors` is set it is called exactly once, with
the implementors table as its argument, and `pending_implementors` is
left unchanged; otherwise `pending_implementors` is set to the table
and `register_implementors` is not called. -/
theorem c2_branching (w : Window) :
    (w.register_implementors_defined = true →
      (runImplementorsScript w).2 = [Event.callRegisterImplementors implementors] ∧
      (runImplementorsScript w).1.pending_implementors = w.pending_implementors) ∧
    (w.register_implementors_defined = false →
      (runImplementorsScript w).2 = [] ∧
      (runImplementorsScript w).1.pending_implementors = some implementors) := by
  unfold runImplementorsScript
  constructor <;> intro h <;> simp [h]

/-- C2 witness: both branches of `c2_branching`, at concrete windows. -/
theorem c2_branching_witness :
    (runImplementorsScript (Window.mk true none [])).2 =
      [Event.callRegisterImplementors implementors] ∧
    (runImplementorsScript (Window.mk false none [])).1.pending_implementors =
      some implementors :=
  ⟨((c2_branching (Window.mk true none [])).1 rfl).1,
   ((c2_branching (Window.mk false none [])).2 rfl).2⟩

/-- C3: every entry in every crate list of the implementors table names
`serde::ser::Serialize` as the trait being implemented (the first
title attribute of each rendered impl text is that trait). -/
theorem c3_single_trait :
    (implementors.all fun p =>
      p.2.all fun e => firstTitleAttr e.text == some ("trait serde::ser::Serialize")) = true := by
  decide

/-- C4 counterexample: the claim as stated — `StageDef<T>` has a
recorded `Serialize` implementation applying to every type parameter
`T` without qualification — is false: the unique recorded `StageDef`
entry carries a `where` clause. -/
theorem c4_counterexample :
    stageDefSerializesForEveryT = false ∧ stageDefEntries.length = 1 := by
  constructor
  · decide
  · decide

/-- C4 amended: the implementors table records exactly one `Serialize`
implementation for `StageDef`, generic in `T`, and it carries the
bound `where T: Serialize`. -/
theorem c4_stagedef_bounded :
    stageDefEntries.length = 1 ∧
    (stageDefEntries.all stageDefBoundedByTSerialize) = true := by
  constructor
  · decide
  · decide

/-- C5: the sidebar index files every record under one of exactly the
four category tags `constant`, `enum`, `struct`, `trait`, and every
record is a two-element array: an item name and a doc-comment
string. -/
theorem c5_sidebar_records :
    sidebarItems.map Prod.fst = ["constant", "enum", "struct", "trait"] ∧
    (sidebarItems.all fun p => p.2.all fun r => r.length == 2) = true := by
  constructor
  · decide
  · decide

/-- C6 counterexample: executing the implementors script does branch on
the window state and does change program state — on a window with no
`register_implementors` the script mutates `pending_implementors`, and
the two branches make observably different calls. -/
theorem c6_counterexample :
    (runImplementorsScript (Window.mk false none [])).1 ≠ Window.mk false none [] ∧
    (runImplementorsScript (Window.mk true none [])).2 ≠
      (runImplementorsScript (Window.mk false none [])).2 := by
  constructor
  · decide
  · decide

/-- C6 amended: the supplied files contain no algorithms or data
structures beyond the metadata literals, but the implementors script
does contain one conditional and does affect state: its only effects
are a single `register_implementors` call or an assignment to
`pending_implementors`, with every other part of the window kept. -/
theorem c6_metadata_only (w : Window) :
    (runImplementorsScript w).1.register_implementors_defined =
      w.register_implementors_defined ∧
    (runImplementorsScript w).1.otherProps = w.otherProps ∧
    ((runImplementorsScript w).2 = [] ∨
      (runImplementorsScript w).2 = [Event.callRegisterImplementors implementors]) ∧
    ((runImplementorsScript w).1.pending_implementors = w.pending_implementors ∨
      (runImplementorsScript w).1.pending_implementors = some implementors) := by
  unfold runImplementorsScript
  by_cases h : w.register_implementors_defined <;> simp [h]

/-- C7: the script modifies no property of `window` other than possibly
`pending_implementors`: `register_implementors` and all other
properties are preserved, and when `register_implementors` is set the
whole window is left unchanged. -/
theorem c7_frame (w : Window) :
    (runImplementorsScript w).1.register_implementors_defined =
      w.register_implementors_defined ∧
    (runImplementorsScript w).1.otherProps = w.otherProps ∧
    (runImplementorsScript w).1.pending_implementors ∈
      [w.pending_implementors, some implementors] ∧
    (w.register_implementors_defined = true → (runImplementorsScript w).1 = w) := by
  unfold runImplementorsScript
  by_cases h : w.register_implementors_defined <;> simp [h]

/-- C7 witness: `c7_frame` at a concrete window with a registered
callback and another property: the window is fully preserved. -/
theorem c7_frame_witness :
    (runImplementorsScript (Window.mk true none [("a", "b")])).1 =
      Window.mk true none [("a", "b")] :=
  (c7_frame (Window.mk true none [("a", "b")])).2.2.2 rfl

/-- C8: no concurrency is present: execution of the implementors script
is a total deterministic relation (a unique follow-up state and call
sequence for every window, no interleaving), and the sidebar file has
a unique execution, a single `initSidebarItems` call. -/
theorem c8_deterministic :
    (∀ w o1 o2, ScriptExec w o1 → ScriptExec w o2 → o1 = o2) ∧
    (∀ w, ScriptExec w (runImplementorsScript w)) ∧
    (∀ e1 e2, SidebarExec e1 → SidebarExec e2 → e1 = e2) := by
  refine ⟨?_, ?_, ?_⟩
  · intro w o1 o2 h1 h2
    cases h1 <;> cases h2 <;> simp_all
  · intro w
    unfold runImplementorsScript
    split
    next h => exact ScriptExec.registered w h
    next h => exact ScriptExec.deferred w (by simp_all)
  · intro e1 e2 h1 h2
    cases h1; cases h2; rfl

/-- C8 witness: the determinism of `c8_deterministic` applied to the
two derivations of the registered branch at a concrete window. -/
theorem c8_deterministic_witness :
    ((Window.mk true none [] : Window), [Event.callRegisterImplementors implementors]) =
      ((Window.mk true none [] : Window), [Event.callRegisterImplementors implementors]) :=
  c8_deterministic.1 (Window.mk true none []) _ _
    (ScriptExec.registered (Window.mk true none []) rfl)
    (ScriptExec.registered (Window.mk true none []) rfl)
